import Mathlib

/-!
Shallow embedding of the snake game engine from `src/snake.py`.

Rendering (curses calls), argument parsing and timing are outside the
engine and are not modelled.  Randomness in `Food.reroll` is modelled by
an explicit stream of candidate locations (the successive results of the
two `randint` calls); the engine is otherwise a pure function of its
state and the raw key code returned by `getch` (`-1` meaning "no key").
Python exceptions that the engine can raise (a `KeyError` on the
`opposites` dictionary, a `pop` from an empty deque) and a reroll loop
that exhausts its candidate stream are modelled by an explicit `stuck`
outcome.
-/

namespace SnakeGame

/-- `Location` from `src/snake.py`: an x/y pair with structural equality
(`__eq__` compares both coordinates). -/
structure Location where
  x : Int
  y : Int
deriving DecidableEq

/-- The `Direction` enum from `src/snake.py`: the four headings plus the
`PAUSED` and `GAMEOVER` control pseudo-directions. -/
inductive Direction where
  | up
  | down
  | left
  | right
  | paused
  | gameover
deriving DecidableEq

/-- `Snake`: a distinguished head plus a deque of body locations ordered
head-to-tail (`appendleft` pushes at the front, `pop` removes at the
back).  The display characters and color are rendering-only and omitted. -/
structure Snake where
  head : Location
  body : List Location
deriving DecidableEq

/-- `Snake.__init__`: head `(5, 5)`, body deque seeded with `(4, 5)` and
then `cheat + 1` appended copies of `(3, 5)`.  The constructor takes no
board dimensions, so this layout is independent of rows/columns. -/
def Snake.init (cheat : Nat) : Snake :=
  { head := ⟨5, 5⟩, body := ⟨4, 5⟩ :: List.replicate (cheat + 1) ⟨3, 5⟩ }

/-- `Snake.__contains__`: `return item in self._body` — membership in the
body deque only; the head is not consulted. -/
def Snake.contains (s : Snake) (item : Location) : Bool :=
  decide (item ∈ s.body)

/-- `Snake.add_head`: `appendleft` the old head onto the body, then
replace the head. -/
def Snake.addHead (s : Snake) (h : Location) : Snake :=
  { head := h, body := s.head :: s.body }

/-- `Snake.pop`: `self._body.pop()` removes and returns the last (oldest)
body element; popping an empty deque raises in Python, modelled as
`none`. -/
def Snake.pop (s : Snake) : Option (Location × Snake) :=
  match s.body.getLast? with
  | none => none
  | some t => some (t, { s with body := s.body.dropLast })

/-- `Snake.__len__`: `len(self._body) + 1`. -/
def Snake.length (s : Snake) : Nat :=
  s.body.length + 1

/-- `Food.reroll`'s sampling loop: draw candidates in turn (each drawn by
`randint(0, cols - 1)` / `randint(0, rows - 1)` in the source), skip any
that is `in snake`, and commit the first one that is not.  An exhausted
candidate stream models a loop that has not yet terminated. -/
def reroll (s : Snake) (candidates : List Location) : Option Location :=
  match candidates with
  | [] => none
  | loc :: rest => if s.contains loc then reroll s rest else some loc

/-- The `keys` dictionary of `Game._get_new_direction`: the twelve
recognized directional key codes (letter, arrow and vi-style alternate
for each compass direction). -/
def keys (key : Int) : Option Direction :=
  if key = 119 then some .up
  else if key = 259 then some .up
  else if key = 107 then some .up
  else if key = 97 then some .left
  else if key = 260 then some .left
  else if key = 104 then some .left
  else if key = 115 then some .down
  else if key = 258 then some .down
  else if key = 106 then some .down
  else if key = 100 then some .right
  else if key = 261 then some .right
  else if key = 108 then some .right
  else none

/-- The `opposites` dictionary of `Game._ensure_valid`; it has entries
only for the four spatial headings, so looking up `PAUSED` or `GAMEOVER`
raises a `KeyError` in Python, modelled as `none`. -/
def opposites (d : Direction) : Option Direction :=
  match d with
  | .up => some .down
  | .down => some .up
  | .left => some .right
  | .right => some .left
  | .paused => none
  | .gameover => none

/-- `Game._ensure_valid(new)` acting on the `_direction` and `_paused`
fields; returns the new `(direction, paused)` pair, or `none` for the
`KeyError` case.  If currently paused it restores the remembered heading
(resetting `_paused` to `PAUSED`) no matter what `new` is; if `new` is
`PAUSED` it stores the current heading; otherwise a move into the exact
opposite of the current heading is rejected. -/
def ensureValid (direction pausedHeading : Direction) (new : Direction) :
    Option (Direction × Direction) :=
  if direction = .paused then
    some (pausedHeading, .paused)
  else if new = .paused then
    some (.paused, direction)
  else
    match opposites direction with
    | none => none
    | some opp =>
      if new = opp then some (direction, pausedHeading)
      else some (new, pausedHeading)

/-- `Game._get_new_direction` for a polled key code `key` (the `getch`
result; `-1` means no key was pending).  Codes `113` (q) and `27` (esc)
yield `GAMEOVER`; `-1` keeps the current state; every other code is
looked up in `keys`, defaulting to `PAUSED` (`keys.get(key,
Direction.PAUSED)`), and passed through `_ensure_valid`. -/
def getNewDirection (direction pausedHeading : Direction) (key : Int) :
    Option (Direction × Direction) :=
  if key = 113 ∨ key = 27 then some (.gameover, pausedHeading)
  else if key = -1 then some (direction, pausedHeading)
  else ensureValid direction pausedHeading ((keys key).getD .paused)

/-- The coordinate computation of `Game._get_new_head`: the `(-1, -1)`
sentinel when paused, otherwise one step from `head` along the resolved
heading (DOWN/RIGHT add 1, UP/LEFT subtract 1, top-left origin). -/
def newHeadLoc (direction : Direction) (head : Location) : Location :=
  if direction = .paused then ⟨-1, -1⟩
  else
    let addend : Int := if direction = .down ∨ direction = .right then 1 else -1
    if direction = .left ∨ direction = .right then ⟨head.x + addend, head.y⟩
    else ⟨head.x, head.y + addend⟩

/-- The engine state owned by `Game`: board dimensions, snake, current
food location, the `_paused` remembered heading, the `_direction`
heading, and the score.  Screen handles and colors are rendering-only
and omitted. -/
structure Game where
  rows : Int
  cols : Int
  snake : Snake
  foodLoc : Location
  pausedHeading : Direction
  direction : Direction
  score : Nat
deriving DecidableEq

/-- `Game.__init__` combined with `Food.__init__`: food starts at the
board center `(cols // 2, rows // 2)` with no check against the snake,
`_paused` starts at `PAUSED`, the heading at `RIGHT`, and the score at
`len(snake)`.  (Board dimensions are positive in every real game, where
Lean's `Int` division agrees with Python's floor division.) -/
def Game.init (rows cols : Int) (cheat : Nat) : Game :=
  { rows := rows
    cols := cols
    snake := Snake.init cheat
    foodLoc := ⟨cols / 2, rows / 2⟩
    pausedHeading := .paused
    direction := .right
    score := (Snake.init cheat).length }

/-- `Game._get_new_head`: resolve the direction (mutating `_direction`
and possibly `_paused`) and compute the prospective head location. -/
def getNewHead (g : Game) (key : Int) :
    Option (Direction × Direction × Location) :=
  match getNewDirection g.direction g.pausedHeading key with
  | none => none
  | some (d, p) => some (d, p, newHeadLoc d g.snake.head)

/-- Outcome of one iteration of the `Game.run` loop: the game returned a
termination reason string, or continues with an updated state, or the
Python code raised / the reroll loop exhausted its candidates. -/
inductive StepResult where
  | terminated (reason : String)
  | next (g : Game)
  | stuck
deriving DecidableEq

/-- One iteration of the `while True` loop in `Game.run`: compute the
prospective head, return on `GAMEOVER` ("Quit"), skip the spatial update
when paused, then in order check vertical bounds, horizontal bounds and
self-collision, then either eat (reroll the food, increment the score,
grow by `add_head` without a pop) or move (`pop` the tail, then
`add_head`). -/
def step (g : Game) (key : Int) (candidates : List Location) : StepResult :=
  match getNewHead g key with
  | none => .stuck
  | some (d, p, newHead) =>
    if d = .gameover then .terminated "Quit"
    else if d = .paused then
      .next { g with direction := d, pausedHeading := p }
    else if newHead.y = g.rows ∨ newHead.y = -1 then
      .terminated "Snake out of bounds vertically"
    else if newHead.x = g.cols ∨ newHead.x = -1 then
      .terminated "Snake out of bounds horizontally"
    else if g.snake.contains newHead then
      .terminated "Snake can't eat itself"
    else if newHead = g.foodLoc then
      match reroll g.snake candidates with
      | none => .stuck
      | some loc =>
        .next { g with
                  direction := d
                  pausedHeading := p
                  foodLoc := loc
                  score := g.score + 1
                  snake := g.snake.addHead newHead }
    else
      match g.snake.pop with
      | none => .stuck
      | some ts =>
        .next { g with
                  direction := d
                  pausedHeading := p
                  snake := ts.2.addHead newHead }

/-! ### Helper lemmas -/

/-- A recognized directional key code is none of the quit codes and not
the no-key sentinel. -/
lemma keys_ne_special {key : Int} {d : Direction} (h : keys key = some d) :
    key ≠ 113 ∧ key ≠ 27 ∧ key ≠ -1 := by
  refine ⟨?_, ?_, ?_⟩ <;> rintro rfl <;> simp [keys] at h

/-- `Snake.contains` is body membership. -/
lemma contains_iff_mem (s : Snake) (loc : Location) :
    s.contains loc = true ↔ loc ∈ s.body := by
  simp [Snake.contains]

/-- Unfolding `Snake.pop` on a successful pop: the body was nonempty
and the returned snake keeps the head and drops the last body element. -/
lemma pop_eq_some {s : Snake} {ts : Location × Snake} (h : s.pop = some ts) :
    s.body ≠ [] ∧ ts.2 = { head := s.head, body := s.body.dropLast } := by
  unfold Snake.pop at h
  split at h
  next heq => exact absurd h (by simp)
  next t heq =>
    cases h
    refine ⟨?_, rfl⟩
    rintro hnil
    rw [hnil] at heq
    simp at heq

/-- Case analysis of a `step` that continues: either the tick was a
paused tick (no spatial change, heading fields updated) or a spatial
move, in which case the snake and the score grow by exactly one on the
food tick and are unchanged otherwise. -/
lemma step_next_spec {g : Game} {key : Int} {cands : List Location}
    {d p : Direction} {nh : Location} {g' : Game}
    (hres : getNewHead g key = some (d, p, nh))
    (hstep : step g key cands = .next g') :
    g'.direction = d ∧
    ((d = .paused ∧ g'.snake = g.snake ∧ g'.foodLoc = g.foodLoc ∧
        g'.score = g.score) ∨
     (d ≠ .paused ∧
       ((nh = g.foodLoc ∧ g'.snake.length = g.snake.length + 1 ∧
           g'.score = g.score + 1) ∨
        (nh ≠ g.foodLoc ∧ g'.snake.length = g.snake.length ∧
           g'.score = g.score)))) := by
  simp only [step, hres] at hstep
  split at hstep
  · exact absurd hstep (by simp)
  split at hstep
  next hpau =>
    cases hstep
    exact ⟨rfl, Or.inl ⟨hpau, rfl, rfl, rfl⟩⟩
  next hpau =>
  split at hstep
  · exact absurd hstep (by simp)
  split at hstep
  · exact absurd hstep (by simp)
  split at hstep
  · exact absurd hstep (by simp)
  split at hstep
  next hfood =>
    split at hstep
    · exact absurd hstep (by simp)
    next loc hre =>
      cases hstep
      refine ⟨rfl, Or.inr ⟨hpau, Or.inl ⟨hfood, ?_, rfl⟩⟩⟩
      simp [Snake.addHead, Snake.length]
  next hfood =>
    split at hstep
    · exact absurd hstep (by simp)
    next ts hpop =>
      cases hstep
      obtain ⟨hne, hts⟩ := pop_eq_some hpop
      refine ⟨rfl, Or.inr ⟨hpau, Or.inr ⟨hfood, ?_, rfl⟩⟩⟩
      have hpos : 0 < g.snake.body.length := List.length_pos.mpr hne
      rw [hts]
      simp only [Snake.addHead, Snake.length, List.length_cons,
        List.length_dropLast]
      omega

/-- While not paused, a code that is unrecognized (and is not a quit
code or the no-key sentinel) resolves to `PAUSED`, storing the current
heading in `_paused`. -/
lemma pause_on_unrecognized {direction : Direction} (pausedHeading : Direction)
    {key : Int} (hdir : direction ≠ .paused) (hmap : keys key = none)
    (h113 : key ≠ 113) (h27 : key ≠ 27) (hneg : key ≠ -1) :
    getNewDirection direction pausedHeading key = some (.paused, direction) := by
  simp [getNewDirection, h113, h27, hneg, hmap, ensureValid, hdir]

/-- While paused, any code other than the quit codes and the no-key
sentinel resolves to the remembered heading, resetting `_paused`. -/
lemma unpause_on_any_key (pausedHeading : Direction) {key : Int}
    (h113 : key ≠ 113) (h27 : key ≠ 27) (hneg : key ≠ -1) :
    getNewDirection .paused pausedHeading key = some (pausedHeading, .paused) := by
  simp [getNewDirection, h113, h27, hneg, ensureValid]

/-! ### Claim theorems -/

/-- C1 counterexample: with heading RIGHT and not paused, the
unrecognized code 112 (the letter p) does not resolve to "heading
unchanged, no state change" — the claim that unrecognized input is a
pure no-op fails at this input. -/
theorem c1_counterexample :
    getNewDirection .right .paused 112 ≠ some (.right, .paused) := by decide

/-- C1 amended: for every non-paused state, resolving an input code that
is not directional, not a quit code and not the no-key sentinel yields
the `PAUSED` pseudo-direction and stores the previous heading: an
unrecognized code pauses the game rather than leaving the heading
unchanged; it is never an error. -/
theorem c1_unrecognized_input_pauses (direction pausedHeading : Direction)
    (key : Int) (hdir : direction ≠ .paused) (hmap : keys key = none)
    (h113 : key ≠ 113) (h27 : key ≠ 27) (hneg : key ≠ -1) :
    getNewDirection direction pausedHeading key = some (.paused, direction) :=
  pause_on_unrecognized pausedHeading hdir hmap h113 h27 hneg

/-- C1 witness: the amended theorem at heading RIGHT and key 112. -/
theorem c1_unrecognized_input_pauses_witness :
    getNewDirection .right .up 112 = some (.paused, .right) :=
  c1_unrecognized_input_pauses .right .up 112 (by decide) (by decide)
    (by decide) (by decide) (by decide)

/-- C2 counterexample: on a 10×10 board the initial food placement (the
board center) coincides with the initial snake head `(5, 5)` — the
claimed placement invariant fails at game start. -/
theorem c2_counterexample :
    (Game.init 10 10 0).foodLoc = (Game.init 10 10 0).snake.head := by decide

/-- C2 amended: whenever the reroll loop commits a location, that
location is not contained in the snake's body (the membership check
excludes the head, so the head is not avoided); the initial placement at
board center is not checked against the snake at all and can coincide
with a snake cell. -/
theorem c2_reroll_avoids_body (s : Snake) (candidates : List Location)
    (loc : Location) (h : reroll s candidates = some loc) :
    s.contains loc = false := by
  induction candidates with
  | nil => exact absurd h (by simp [reroll])
  | cons c rest ih =>
    rw [reroll] at h
    split at h
    · exact ih h
    · cases h
      simp_all


/-- C2 witness: the amended theorem on the initial snake with candidate
stream `[(4, 5), (0, 0)]` — the first candidate lies on the body and is
skipped, the second is committed and is not on the body. -/
theorem c2_reroll_avoids_body_witness :
    (Snake.init 0).contains ⟨0, 0⟩ = false :=
  c2_reroll_avoids_body (Snake.init 0) [⟨4, 5⟩, ⟨0, 0⟩] ⟨0, 0⟩ (by decide)

/-- C4 counterexample: on the freshly constructed snake,
`Snake.contains` applied to the snake's own head returns `false`,
although the claim requires `true` for a location equal to the head. -/
theorem c4_counterexample :
    (Snake.init 0).contains (Snake.init 0).head = false := by decide

/-- C4 amended: for every Location `loc` and every snake state,
`Snake.contains loc` returns true if and only if `loc` equals some body
segment — the head is not consulted by the membership check. -/
theorem c4_contains_is_body_membership (s : Snake) (loc : Location) :
    s.contains loc = true ↔ loc ∈ s.body :=
  contains_iff_mem s loc

/-- C8: for every current heading among the four spatial directions
(`opposites` is defined exactly on those), a directional key code
mapping to the exact opposite of the current heading is rejected:
resolution returns the current heading and leaves the remembered
pause heading unchanged, so the heading never reverses in one step. -/
theorem c8_reversal_rejected (direction pausedHeading : Direction)
    (key : Int) (op : Direction) (hop : opposites direction = some op)
    (hkey : keys key = some op) :
    getNewDirection direction pausedHeading key = some (direction, pausedHeading) := by
  obtain ⟨h113, h27, hneg⟩ := keys_ne_special hkey
  have hdir : direction ≠ .paused := by
    rintro rfl; exact absurd hop (by simp [opposites])
  have hopp : op ≠ .paused := by
    cases direction <;> simp [opposites] at hop <;> simp [← hop]
  simp [getNewDirection, h113, h27, hneg, hkey, ensureValid, hdir, hopp, hop]

/-- C8 witness: heading RIGHT, key 97 (the letter a, mapping to LEFT,
the exact opposite): the heading stays RIGHT. -/
theorem c8_reversal_rejected_witness :
    getNewDirection .right .paused 97 = some (.right, .paused) :=
  c8_reversal_rejected .right .paused 97 .left (by decide) (by decide)

/-- C10: for every cheat value `c`, the freshly constructed snake has
head `(5, 5)`, body `[(4, 5)]` followed by `c + 1` copies of `(3, 5)`
(the cheat segments are duplicate locations all stacked on `(3, 5)`),
and length exactly `c + 3`; `Snake.init` takes no board dimensions, and
whenever the board has at most 5 columns (resp. rows) the head's x
(resp. y) coordinate is not inside it. -/
theorem c10_initial_snake (c : Nat) :
    (Snake.init c).head = ⟨5, 5⟩ ∧
    (Snake.init c).body = ⟨4, 5⟩ :: List.replicate (c + 1) ⟨3, 5⟩ ∧
    (Snake.init c).length = c + 3 ∧
    (∀ cols : Int, cols ≤ 5 → ¬((Snake.init c).head.x < cols)) ∧
    (∀ rows : Int, rows ≤ 5 → ¬((Snake.init c).head.y < rows)) := by
  refine ⟨rfl, rfl, ?_, ?_, ?_⟩
  · simp [Snake.length, Snake.init]
  · intro cols h
    simp only [Snake.init]
    omega
  · intro rows h
    simp only [Snake.init]
    omega

/-- C10 witness: with cheat 2 the snake has length 5, and on a board of
5 columns the head's x coordinate 5 is already out of bounds. -/
theorem c10_initial_snake_witness :
    (Snake.init 2).length = 5 ∧ ¬((Snake.init 2).head.x < 5) :=
  ⟨(c10_initial_snake 2).2.2.1, (c10_initial_snake 2).2.2.2.1 5 (by decide)⟩

/-- A snake of length 4 coiled in a 2×2 square on a 5×5 board, heading
UP; an input of LEFT targets `(0, 1)`, the current tail cell. -/
def gC3 : Game :=
  { rows := 5
    cols := 5
    snake := { head := ⟨1, 1⟩, body := [⟨1, 0⟩, ⟨0, 0⟩, ⟨0, 1⟩] }
    foodLoc := ⟨3, 3⟩
    pausedHeading := .paused
    direction := .up
    score := 4 }

/-- C3 counterexample: with the snake of `gC3`, the LEFT key (code 97)
makes the prospective head `(0, 1)`, exactly the current tail cell, on a
tick with no food there — and the game terminates with "Snake can't eat
itself" although the claim requires the move to be legal. -/
theorem c3_counterexample :
    step gC3 97 [] = .terminated "Snake can't eat itself" ∧
    gC3.snake.body.getLast? = some ⟨0, 1⟩ ∧
    (⟨0, 1⟩ : Location) ≠ gC3.foodLoc := by decide

/-- C3 amended: self-collision is judged against the pre-move body
including the tail cell that is about to be vacated — a prospective new
head equal to the current tail cell (in bounds, on any tick) DOES count
as a collision and terminates the game with "Snake can't eat itself". -/
theorem c3_tail_counts_as_collision (g : Game) (key : Int)
    (cands : List Location) (d p : Direction) (nh : Location)
    (hres : getNewHead g key = some (d, p, nh))
    (hgo : d ≠ .gameover) (hpau : d ≠ .paused)
    (hy1 : nh.y ≠ g.rows) (hy2 : nh.y ≠ -1)
    (hx1 : nh.x ≠ g.cols) (hx2 : nh.x ≠ -1)
    (htail : g.snake.body.getLast? = some nh) :
    step g key cands = .terminated "Snake can't eat itself" := by
  have hmem : nh ∈ g.snake.body := by
    obtain ⟨hne, heq⟩ :=
      List.mem_getLast?_eq_getLast (Option.mem_def.mpr htail)
    have := List.getLast_mem hne
    rwa [← heq] at this
  have hc : g.snake.contains nh = true := (contains_iff_mem _ _).mpr hmem
  simp [step, hres, hgo, hpau, hy1, hy2, hx1, hx2, hc]

/-- C3 witness: the amended theorem at the concrete state `gC3`. -/
theorem c3_tail_counts_as_collision_witness :
    step gC3 97 [] = .terminated "Snake can't eat itself" :=
  c3_tail_counts_as_collision gC3 97 [] .left .paused ⟨0, 1⟩ (by decide)
    (by decide) (by decide) (by decide) (by decide) (by decide) (by decide)
    (by decide)

/-- C5: (1) on every continuing tick whose resolved heading is not
`PAUSED`, the snake length and the score both increase by exactly one
when the prospective head equals the food location, and both are
unchanged otherwise; (2) the initial score equals the initial snake
length; (3) the score never decreases across any continuing tick. -/
theorem c5_growth_and_score :
    (∀ (g : Game) (key : Int) (cands : List Location) (d p : Direction)
        (nh : Location) (g' : Game),
        getNewHead g key = some (d, p, nh) → d ≠ .paused →
        step g key cands = .next g' →
        ((nh = g.foodLoc → g'.snake.length = g.snake.length + 1 ∧
            g'.score = g.score + 1) ∧
         (nh ≠ g.foodLoc → g'.snake.length = g.snake.length ∧
            g'.score = g.score))) ∧
    (∀ (rows cols : Int) (cheat : Nat),
        (Game.init rows cols cheat).score = (Snake.init cheat).length) ∧
    (∀ (g : Game) (key : Int) (cands : List Location) (g' : Game),
        step g key cands = .next g' → g.score ≤ g'.score) := by
  refine ⟨?_, ?_, ?_⟩
  · intro g key cands d p nh g' hres hd hstep
    obtain ⟨-, hcases⟩ := step_next_spec hres hstep
    rcases hcases with ⟨hpau, -⟩ | ⟨-, hfood | hnof⟩
    · exact absurd hpau hd
    · exact ⟨fun _ => ⟨hfood.2.1, hfood.2.2⟩, fun hne => absurd hfood.1 hne⟩
    · exact ⟨fun heq => absurd heq hnof.1, fun _ => ⟨hnof.2.1, hnof.2.2⟩⟩
  · intro rows cols cheat
    rfl
  · intro g key cands g' hstep
    cases hr : getNewHead g key with
    | none => rw [step, hr] at hstep; exact absurd hstep (by simp)
    | some val =>
      obtain ⟨d, p, nh⟩ := val
      obtain ⟨-, hcases⟩ := step_next_spec hr hstep
      rcases hcases with ⟨-, -, -, hsc⟩ | ⟨-, hfood | hnof⟩
      · omega
      · omega
      · omega

/-- A concrete food-eating tick: food directly ahead of the head. -/
def g5 : Game :=
  { rows := 10
    cols := 10
    snake := Snake.init 0
    foodLoc := ⟨6, 5⟩
    pausedHeading := .paused
    direction := .right
    score := 3 }

/-- The state after the food-eating tick of `g5` with candidate stream
`[(0, 0)]`. -/
def g5next : Game :=
  { g5 with
      foodLoc := ⟨0, 0⟩
      score := 4
      snake := { head := ⟨6, 5⟩, body := [⟨5, 5⟩, ⟨4, 5⟩, ⟨3, 5⟩] } }

/-- C5 witness: the three parts of the theorem at concrete inputs. -/
theorem c5_growth_and_score_witness :
    (g5next.snake.length = g5.snake.length + 1 ∧ g5next.score = g5.score + 1) ∧
    (Game.init 8 8 1).score = (Snake.init 1).length ∧
    g5.score ≤ g5next.score :=
  ⟨(c5_growth_and_score.1 g5 (-1) [⟨0, 0⟩] .right .paused ⟨6, 5⟩ g5next
      (by decide) (by decide) (by decide)).1 (by decide),
   c5_growth_and_score.2.1 8 8 1,
   c5_growth_and_score.2.2 g5 (-1) [⟨0, 0⟩] g5next (by decide)⟩

/-- A snake of length 4 filling the whole 2×2 board, heading LEFT. -/
def gC6 : Game :=
  { rows := 2
    cols := 2
    snake := { head := ⟨0, 0⟩, body := [⟨1, 0⟩, ⟨1, 1⟩, ⟨0, 1⟩] }
    foodLoc := ⟨1, 1⟩
    pausedHeading := .paused
    direction := .left
    score := 4 }

/-- C6 counterexample: the snake's length equals the board capacity
`rows * cols = 4`, yet the tick does not terminate with "You won" (no
such outcome and no BoardFull fault exist in the code) — it terminates
with an out-of-bounds reason instead. -/
theorem c6_counterexample :
    gC6.snake.length = 4 ∧ gC6.rows * gC6.cols = 4 ∧
    step gC6 (-1) [] = .terminated "Snake out of bounds horizontally" := by
  decide

/-- C6 amended: the engine has no board-saturation guard — every
termination reason is one of "Quit", the two out-of-bounds reasons, or
"Snake can't eat itself", so "You won" and "BoardFull" never occur.
Nevertheless, whenever the food branch is reached the prospective new
head has itself passed the body-membership check, so it is an admissible
sample for the reroll loop: a free cell always exists at reroll time. -/
theorem c6_no_saturation_guard :
    (∀ (g : Game) (key : Int) (cands : List Location) (r : String),
        step g key cands = .terminated r →
        r = "Quit" ∨ r = "Snake out of bounds vertically" ∨
          r = "Snake out of bounds horizontally" ∨
          r = "Snake can't eat itself") ∧
    (∀ (s : Snake) (nh : Location), s.contains nh = false →
        reroll s [nh] = some nh) := by
  constructor
  · intro g key cands r hstep
    unfold step at hstep
    split at hstep
    · exact absurd hstep (by simp)
    split at hstep
    · cases hstep
      simp
    split at hstep
    · exact absurd hstep (by simp)
    split at hstep
    · cases hstep
      simp
    split at hstep
    · cases hstep
      simp
    split at hstep
    · cases hstep
      simp
    split at hstep
    · split at hstep
      · exact absurd hstep (by simp)
      · exact absurd hstep (by simp)
    · split at hstep
      · exact absurd hstep (by simp)
      · exact absurd hstep (by simp)
  · intro s nh h
    simp [reroll, h]

/-- C6 witness: both parts of the theorem at concrete inputs (a quit
tick, and a reroll whose single candidate is off the body). -/
theorem c6_no_saturation_guard_witness :
    ("Quit" = "Quit" ∨ "Quit" = "Snake out of bounds vertically" ∨
      "Quit" = "Snake out of bounds horizontally" ∨
      "Quit" = "Snake can't eat itself") ∧
    reroll (Snake.init 0) [⟨0, 0⟩] = some ⟨0, 0⟩ :=
  ⟨c6_no_saturation_guard.1 (Game.init 10 10 0) 113 [] "Quit" (by decide),
   c6_no_saturation_guard.2 (Snake.init 0) ⟨0, 0⟩ (by decide)⟩

/-- C7: on a tick that is neither a quit nor a pause, the termination
checks fire in a fixed order — first the vertical bounds check (y equal
to `rows` or `-1`), then the horizontal bounds check (x equal to `cols`
or `-1`), then self-collision; the vertical reason needs no assumption
on x, so at a corner where both bounds trigger the vertical reason
wins. -/
theorem c7_check_order (g : Game) (key : Int) (cands : List Location)
    (d p : Direction) (nh : Location)
    (hres : getNewHead g key = some (d, p, nh))
    (hgo : d ≠ .gameover) (hpau : d ≠ .paused) :
    ((nh.y = g.rows ∨ nh.y = -1) →
        step g key cands = .terminated "Snake out of bounds vertically") ∧
    (¬(nh.y = g.rows ∨ nh.y = -1) → (nh.x = g.cols ∨ nh.x = -1) →
        step g key cands = .terminated "Snake out of bounds horizontally") ∧
    (¬(nh.y = g.rows ∨ nh.y = -1) → ¬(nh.x = g.cols ∨ nh.x = -1) →
        g.snake.contains nh = true →
        step g key cands = .terminated "Snake can't eat itself") := by
  refine ⟨fun hv => ?_, fun hnv hh => ?_, fun hnv hnh hc => ?_⟩
  · simp [step, hres, hgo, hpau, hv]
  · simp [step, hres, hgo, hpau, hnv, hh]
  · simp [step, hres, hgo, hpau, hnv, hnh, hc]

/-- Heading UP with head at `(-1, 0)`: the next head `(-1, -1)` violates
both bounds at once — the corner tie-break case. -/
def gC7v : Game :=
  { rows := 5
    cols := 5
    snake := { head := ⟨-1, 0⟩, body := [⟨-1, 1⟩] }
    foodLoc := ⟨3, 3⟩
    pausedHeading := .paused
    direction := .up
    score := 2 }

/-- Heading RIGHT with head at `(4, 2)` on a 5-column board: the next
head `(5, 2)` leaves horizontally only. -/
def gC7h : Game :=
  { rows := 5
    cols := 5
    snake := { head := ⟨4, 2⟩, body := [⟨3, 2⟩] }
    foodLoc := ⟨0, 0⟩
    pausedHeading := .paused
    direction := .right
    score := 2 }

/-- Heading RIGHT with head at `(2, 2)` and the body cell `(3, 2)` dead
ahead: an in-bounds self-collision. -/
def gC7s : Game :=
  { rows := 5
    cols := 5
    snake := { head := ⟨2, 2⟩, body := [⟨3, 2⟩] }
    foodLoc := ⟨0, 0⟩
    pausedHeading := .paused
    direction := .right
    score := 2 }

/-- C7 witness: the three ordered checks at concrete states; in the
first, both bounds are violated and the vertical reason wins. -/
theorem c7_check_order_witness :
    step gC7v (-1) [] = .terminated "Snake out of bounds vertically" ∧
    step gC7h (-1) [] = .terminated "Snake out of bounds horizontally" ∧
    step gC7s (-1) [] = .terminated "Snake can't eat itself" :=
  ⟨(c7_check_order gC7v (-1) [] .up .paused ⟨-1, -1⟩ (by decide) (by decide)
      (by decide)).1 (by decide),
   (c7_check_order gC7h (-1) [] .right .paused ⟨5, 2⟩ (by decide) (by decide)
      (by decide)).2.1 (by decide) (by decide),
   (c7_check_order gC7s (-1) [] .right .paused ⟨3, 2⟩ (by decide) (by decide)
      (by decide)).2.2 (by decide) (by decide) (by decide)⟩

/-- C9 counterexample: while paused with remembered heading UP, the
directional code 100 (the letter d, mapping to RIGHT) — not a
pause-toggle code — flips the paused state: resolution yields the
remembered heading UP (not PAUSED, and not RIGHT), so it is not true
that exactly the pause-toggle code flips the paused/unpaused state. -/
theorem c9_counterexample :
    getNewDirection .paused .up 100 = some (.up, .paused) ∧
    Direction.up ≠ .paused := by decide

/-- C9 amended: (1) while unpaused, any unrecognized non-quit code
pauses and the active heading is remembered; (2) while paused, ANY code
other than the quit codes and the no-key sentinel unpauses and restores
the remembered heading verbatim, its own meaning ignored — so there is
no single dedicated pause-toggle code; (3) on a paused tick no spatial
update occurs: snake, food and score are unchanged; (4) pausing and then
pressing any such key again restores the exact pre-pause heading. -/
theorem c9_pause_roundtrip :
    (∀ (direction pausedHeading : Direction) (key : Int),
        direction ≠ .paused → keys key = none →
        key ≠ 113 → key ≠ 27 → key ≠ -1 →
        getNewDirection direction pausedHeading key =
          some (.paused, direction)) ∧
    (∀ (pausedHeading : Direction) (key : Int),
        key ≠ 113 → key ≠ 27 → key ≠ -1 →
        getNewDirection .paused pausedHeading key =
          some (pausedHeading, .paused)) ∧
    (∀ (g : Game) (key : Int) (cands : List Location) (g' : Game),
        step g key cands = .next g' → g'.direction = .paused →
        g'.snake = g.snake ∧ g'.foodLoc = g.foodLoc ∧
          g'.score = g.score) ∧
    (∀ (direction pausedHeading : Direction) (k1 k2 : Int),
        direction ≠ .paused → keys k1 = none →
        k1 ≠ 113 → k1 ≠ 27 → k1 ≠ -1 →
        k2 ≠ 113 → k2 ≠ 27 → k2 ≠ -1 →
        getNewDirection direction pausedHeading k1 =
          some (.paused, direction) ∧
        getNewDirection .paused direction k2 =
          some (direction, .paused)) := by
  refine ⟨?_, ?_, ?_, ?_⟩
  · intro direction pausedHeading key hdir hmap h113 h27 hneg
    exact pause_on_unrecognized pausedHeading hdir hmap h113 h27 hneg
  · intro pausedHeading key h113 h27 hneg
    exact unpause_on_any_key pausedHeading h113 h27 hneg
  · intro g key cands g' hstep hdir
    cases hr : getNewHead g key with
    | none => rw [step, hr] at hstep; exact absurd hstep (by simp)
    | some val =>
      obtain ⟨d, p, nh⟩ := val
      obtain ⟨hdir2, hcases⟩ := step_next_spec hr hstep
      rcases hcases with ⟨-, hs, hf, hsc⟩ | ⟨hpau, -⟩
      · exact ⟨hs, hf, hsc⟩
      · rw [hdir] at hdir2
        exact absurd hdir2.symm hpau
  · intro direction pausedHeading k1 k2 hdir hmap h113 h27 hneg h113b h27b
      hnegb
    exact ⟨pause_on_unrecognized pausedHeading hdir hmap h113 h27 hneg,
      unpause_on_any_key direction h113b h27b hnegb⟩

/-- The initial 10×12 game, about to be paused by an unrecognized key. -/
def gP : Game := Game.init 10 12 0

/-- The state after pressing the unrecognized key 112 in `gP`: paused,
with the active heading RIGHT remembered and everything else intact. -/
def gPnext : Game :=
  { Game.init 10 12 0 with direction := .paused, pausedHeading := .right }

/-- C9 witness: the four parts at concrete inputs — key 112 pauses from
heading LEFT; while paused with remembered heading DOWN, the UP key 119
restores DOWN; the concrete paused tick `gP → gPnext` changes no snake,
food or score; and the unrecognized key 120 pauses then unpauses back to
DOWN. -/
theorem c9_pause_roundtrip_witness :
    getNewDirection .left .paused 112 = some (.paused, .left) ∧
    getNewDirection .paused .down 119 = some (.down, .paused) ∧
    (gPnext.snake = gP.snake ∧ gPnext.foodLoc = gP.foodLoc ∧
      gPnext.score = gP.score) ∧
    (getNewDirection .down .paused 120 = some (.paused, .down) ∧
      getNewDirection .paused .down 120 = some (.down, .paused)) :=
  ⟨c9_pause_roundtrip.1 .left .paused 112 (by decide) (by decide) (by decide)
      (by decide) (by decide),
   c9_pause_roundtrip.2.1 .down 119 (by decide) (by decide) (by decide),
   c9_pause_roundtrip.2.2.1 gP 112 [] gPnext (by decide) (by decide),
   c9_pause_roundtrip.2.2.2 .down .paused 120 120 (by decide) (by decide)
      (by decide) (by decide) (by decide) (by decide) (by decide)
      (by decide)⟩

end SnakeGame
